import Mathlib

/-!
Verification development for the portfolio allocation / simulation engine of
`src/utils/stock-market-simulator.ts` (classes `PortfolioCalculator` and
`AdvancedPortfolioSimulator`).

Modelling conventions:
* JavaScript numbers are modelled as real numbers (`ℝ`); floating-point
  rounding of arithmetic is not modelled, but the explicit 2-decimal display
  rounding `parseFloat(x.toFixed(2))` is modelled by `round2`.
* Thrown exceptions are modelled by `Except` results; the distinct throw
  sites are mapped to the constructors of `AllocError` / `SimError`.
* The process-wide random source is modelled by an explicit stream of
  uniform draws, one pair `(u, v)` per (month, stock-index); the Box-Muller
  transform and the ±3.5 clipping are embedded in
  `generateStandardNormalRandom`.
* The name-keyed holdings object of the simulator is modelled as a list of
  values parallel to the stock list (the data model declares stock names
  unique, and every write site writes all names in stock-list order).
-/

open Classical

namespace ChadFinance

/-- Scenario enumeration, `ScenarioType` in the source. -/
inductive ScenarioType
  | BEST
  | AVERAGE
  | WORST
deriving DecidableEq

/-- `interface Stock`: name, annual geometric-mean return, annual volatility. -/
structure Stock where
  name : String
  geometricMean : ℝ
  volatility : ℝ

/-- Placeholder stock used only as the out-of-range default of list indexing. -/
def defaultStock : Stock := ⟨"", 0, 0⟩

/-- `interface BankAccount`: name and annual interest rate. -/
structure BankAccount where
  name : String
  interestRate : ℝ

/-- `interface StockAllocationResult`. -/
structure StockAllocationResult where
  name : String
  amount : ℝ
  weightInBasket : ℝ
  weightInTotal : ℝ

/-- The `bankAllocation` field of `PortfolioAllocationResult`. -/
structure BankAllocationResult where
  name : String
  amount : ℝ
  weightInTotal : ℝ

/-- The `basketMetrics` record: expected return, volatility, Sharpe ratio.
The source's Sharpe ratio can be `Infinity` or `-Infinity` (zero-volatility
basket with nonzero excess return), so it is modelled in the extended reals. -/
structure BasketMetrics where
  expectedReturn : ℝ
  volatility : ℝ
  sharpeRatio : EReal

/-- `interface PortfolioAllocationResult`. -/
structure PortfolioAllocationResult where
  stocks : List StockAllocationResult
  bankAllocation : BankAllocationResult
  basketMetrics : BasketMetrics
  targetPortfolioVolatility : ℝ
  totalInvestment : ℝ

/-- The distinct failure conditions thrown by `PortfolioCalculator`,
named as in the specification's error taxonomy. -/
inductive AllocError
  | invalidInput
  | unachievableVolatility
  | degenerateSharpeWeights
deriving DecidableEq

/-- `MIN_INTEREST_RATE` of `PortfolioCalculator`. -/
noncomputable def MIN_INTEREST_RATE : ℝ := 0.01

/-- `MAX_INTEREST_RATE` of `PortfolioCalculator`. -/
noncomputable def MAX_INTEREST_RATE : ℝ := 0.076

/-- `PortfolioCalculator.validateInputs` (source lines 333-363).  Each throw
site becomes `AllocError.invalidInput`.  The per-stock `forEach` checks
(non-positive volatility, malformed/empty name) are merged into one
existential test; the `typeof` checks are vacuous in the typed model. -/
noncomputable def validateInputs (totalAmount : ℝ) (stocks : List Stock)
    (bankAccount : BankAccount) (targetPortfolioVolatility correlation : ℝ) :
    Except AllocError Unit :=
  if totalAmount < 0 then .error .invalidInput
  else if ∃ s ∈ stocks, s.volatility ≤ 0 ∨ s.name = "" then .error .invalidInput
  else if bankAccount.interestRate < MIN_INTEREST_RATE ∨
      MAX_INTEREST_RATE < bankAccount.interestRate then .error .invalidInput
  else if targetPortfolioVolatility < 0 then .error .invalidInput
  else if correlation < -1 ∨ 1 < correlation then .error .invalidInput
  else .ok ()

/-- `PortfolioCalculator.calculateStockSharpeRatios` (source lines 365-370).
The source's `volatility === 0` branch returns `±Infinity`/`0`; it is dead
code in every call path because `validateInputs` (which always runs first)
rejects `volatility ≤ 0`, so the embedding uses the plain quotient. -/
noncomputable def calculateStockSharpeRatios (stocks : List Stock)
    (riskFreeRate : ℝ) : List ℝ :=
  stocks.map fun stock => (stock.geometricMean - riskFreeRate) / stock.volatility

/-- `PortfolioCalculator.calculateBasketWeights` (source lines 372-396). -/
noncomputable def calculateBasketWeights (stockSharpeRatios : List ℝ)
    (_stockNames : List String) : Except AllocError (List ℝ) :=
  let sumPositiveSharpe := (stockSharpeRatios.filter fun r => decide (0 < r)).sum
  if sumPositiveSharpe = 0 then
    if ∀ r ∈ stockSharpeRatios, r ≤ 0 then
      .ok (if 0 < stockSharpeRatios.length then
        stockSharpeRatios.map fun _ => 1 / (stockSharpeRatios.length : ℝ)
      else [])
    else .error .degenerateSharpeWeights
  else
    .ok (stockSharpeRatios.map fun ratio =>
      if 0 < ratio then ratio / sumPositiveSharpe else 0)

/-- Basket expected return, the weighted `reduce` of
`calculateBasketMetrics` (source line 399). -/
noncomputable def basketExpectedReturn (stocks : List Stock)
    (basketWeights : List ℝ) : ℝ :=
  ∑ i ∈ Finset.range stocks.length,
    basketWeights.getD i 0 * (stocks.getD i defaultStock).geometricMean

/-- Basket variance, the double loop of `calculateBasketMetrics`
(source lines 400-406): `Σ wi²σi² + Σ_{i<j} 2 wi wj σi σj ρ`. -/
noncomputable def basketVariance (stocks : List Stock) (basketWeights : List ℝ)
    (correlation : ℝ) : ℝ :=
  ∑ i ∈ Finset.range stocks.length,
    (basketWeights.getD i 0 ^ 2 * (stocks.getD i defaultStock).volatility ^ 2 +
      ∑ j ∈ Finset.Ioo i stocks.length,
        2 * basketWeights.getD i 0 * basketWeights.getD j 0 *
          (stocks.getD i defaultStock).volatility *
          (stocks.getD j defaultStock).volatility * correlation)

/-- `PortfolioCalculator.calculateBasketMetrics` (source lines 398-418). -/
noncomputable def calculateBasketMetrics (stocks : List Stock)
    (basketWeights : List ℝ) (riskFreeRate correlation : ℝ) : BasketMetrics :=
  let basketER := basketExpectedReturn stocks basketWeights
  let basketVolatility := Real.sqrt (basketVariance stocks basketWeights correlation)
  let basketSharpeRatio : EReal :=
    if 0 < basketVolatility then (((basketER - riskFreeRate) / basketVolatility : ℝ) : EReal)
    else if basketER - riskFreeRate = 0 then (0 : EReal)
    else if riskFreeRate < basketER then ⊤ else ⊥
  ⟨basketER, basketVolatility, basketSharpeRatio⟩

/-- The `basketWeightInPortfolio` computation of `calculateAllocation`
(source lines 286-303), including the `UnachievableVolatility` throw. -/
noncomputable def basketWeightInPortfolioResult (basketMetrics : BasketMetrics)
    (targetPortfolioVolatility riskFreeRate : ℝ) : Except AllocError ℝ :=
  if basketMetrics.volatility = 0 then
    if targetPortfolioVolatility = 0 then
      .ok (if riskFreeRate < basketMetrics.expectedReturn then 1 else 0)
    else .error .unachievableVolatility
  else .ok (targetPortfolioVolatility / basketMetrics.volatility)

/-- The early-return result of `calculateAllocation` for an empty stock list
with zero target volatility (source lines 259-273). -/
noncomputable def emptyStocksResult (totalAmount : ℝ)
    (bankAccount : BankAccount) : PortfolioAllocationResult :=
  { stocks := []
    bankAllocation :=
      { name := bankAccount.name
        amount := totalAmount
        weightInTotal := if 0 < totalAmount then 100 else 0 }
    basketMetrics := ⟨0, 0, (0 : EReal)⟩
    targetPortfolioVolatility := 0
    totalInvestment := totalAmount }

/-- The final result assembly of `calculateAllocation` (source lines 305-330). -/
noncomputable def assembleResult (totalAmount : ℝ) (stocks : List Stock)
    (bankAccount : BankAccount) (targetPortfolioVolatility : ℝ)
    (basketWeights : List ℝ) (basketMetrics : BasketMetrics)
    (basketWeightInPortfolio : ℝ) : PortfolioAllocationResult :=
  let bankWeightInPortfolio := 1 - basketWeightInPortfolio
  let totalAllocatedToBasket := totalAmount * basketWeightInPortfolio
  let totalAllocatedToBank := totalAmount * bankWeightInPortfolio
  { stocks := List.zipWith (fun (stock : Stock) (w : ℝ) =>
      { name := stock.name
        amount := totalAllocatedToBasket * w
        weightInBasket := w * 100
        weightInTotal := w * basketWeightInPortfolio * 100 }) stocks basketWeights
    bankAllocation :=
      { name := bankAccount.name
        amount := totalAllocatedToBank
        weightInTotal := bankWeightInPortfolio * 100 }
    basketMetrics :=
      { expectedReturn := basketMetrics.expectedReturn * 100
        volatility := basketMetrics.volatility * 100
        sharpeRatio := basketMetrics.sharpeRatio }
    targetPortfolioVolatility := targetPortfolioVolatility * 100
    totalInvestment := totalAmount }

/-- `PortfolioCalculator.calculateAllocation` (source lines 247-331). -/
noncomputable def calculateAllocation (totalAmount : ℝ) (stocks : List Stock)
    (bankAccount : BankAccount) (targetPortfolioVolatility correlation : ℝ) :
    Except AllocError PortfolioAllocationResult :=
  match validateInputs totalAmount stocks bankAccount targetPortfolioVolatility correlation with
  | .error e => .error e
  | .ok _ =>
    if stocks = [] then
      if targetPortfolioVolatility = 0 then
        .ok (emptyStocksResult totalAmount bankAccount)
      else .error .unachievableVolatility
    else
      let riskFreeRate := bankAccount.interestRate
      let stockSharpeRatios := calculateStockSharpeRatios stocks riskFreeRate
      match calculateBasketWeights stockSharpeRatios (stocks.map Stock.name) with
      | .error e => .error e
      | .ok basketWeights =>
        let basketMetrics := calculateBasketMetrics stocks basketWeights riskFreeRate correlation
        match basketWeightInPortfolioResult basketMetrics targetPortfolioVolatility riskFreeRate with
        | .error e => .error e
        | .ok basketWeightInPortfolio =>
          .ok (assembleResult totalAmount stocks bankAccount
            targetPortfolioVolatility basketWeights basketMetrics basketWeightInPortfolio)

/-! ## The simulator (`AdvancedPortfolioSimulator`) -/

/-- One recorded month, `interface MonthlySimulatedPortfolioState`.
`stockValues` is the name-keyed object modelled as a list parallel to the
stock list. -/
structure MonthlySimulatedPortfolioState where
  month : ℕ
  stockValues : List ℝ
  bankValue : ℝ
  totalPortfolioValue : ℝ
  totalCapitalInvested : ℝ

/-- The `parseFloat(x.toFixed(2))` display rounding: round to the nearest
hundredth (ties rounded up). -/
noncomputable def round2 (x : ℝ) : ℝ := (⌊x * 100 + 1 / 2⌋ : ℤ) / 100

/-- The validation throw sites of `simulateInvestmentStrategy`
(source lines 453-460).  The non-negative-integer duration check is
subsumed by the `ℕ` duration type. -/
inductive SimError
  | negativeInitialInvestment
  | negativeMonthlyDeposit
  | noStocksForTargetVolatility
deriving DecidableEq

/-- `AdvancedPortfolioSimulator.generateStandardNormalRandom`
(source lines 434-440) as a function of the two uniform draws `u, v`
(the source resamples zero draws, so `u, v ∈ (0,1)`): the Box-Muller
sample `sqrt(-2 ln u) · cos(2π v)` clipped to `[-3.5, 3.5]`. -/
noncomputable def generateStandardNormalRandom (u v : ℝ) : ℝ :=
  max (-3.5) (min 3.5 (Real.sqrt (-2 * Real.log u) * Real.cos (2 * Real.pi * v)))

/-- `BEST_CASE_RETURN_MULTIPLIER`. -/
noncomputable def BEST_CASE_RETURN_MULTIPLIER : ℝ := 1.5

/-- `BEST_CASE_VOL_MULTIPLIER`. -/
noncomputable def BEST_CASE_VOL_MULTIPLIER : ℝ := 0.6

/-- `WORST_CASE_RETURN_MULTIPLIER`. -/
noncomputable def WORST_CASE_RETURN_MULTIPLIER : ℝ := 0.3

/-- `WORST_CASE_ADDITIONAL_NEGATIVE_BIAS`. -/
noncomputable def WORST_CASE_ADDITIONAL_NEGATIVE_BIAS : ℝ := -0.0075

/-- `WORST_CASE_VOL_MULTIPLIER`. -/
noncomputable def WORST_CASE_VOL_MULTIPLIER : ℝ := 1.25

/-- The per-stock scenario switch of the monthly simulation loop
(source lines 504-522): the scenario-adjusted return with its `-100%`
floor (`Math.max(-1, ...)`). -/
noncomputable def actualMonthlyReturn (scenario : ScenarioType)
    (monthlyExpectedReturn monthlyVolatility randomFactor : ℝ) : ℝ :=
  max (-1)
    (match scenario with
     | .BEST => monthlyExpectedReturn * BEST_CASE_RETURN_MULTIPLIER +
         |randomFactor| * (monthlyVolatility * BEST_CASE_VOL_MULTIPLIER)
     | .WORST => (monthlyExpectedReturn * WORST_CASE_RETURN_MULTIPLIER +
         WORST_CASE_ADDITIONAL_NEGATIVE_BIAS) +
         randomFactor * (monthlyVolatility * WORST_CASE_VOL_MULTIPLIER)
     | .AVERAGE => monthlyExpectedReturn + randomFactor * monthlyVolatility)

/-- Growth of the existing stock holdings in one simulated month
(source lines 500-524): each stock draws one clipped normal sample from the
stream `randm` and grows by `1 + actualMonthlyReturn`. -/
noncomputable def growHoldings (stocks : List Stock) (scenario : ScenarioType)
    (randm : ℕ → ℝ × ℝ) (holdings : List ℝ) : List ℝ :=
  (List.range stocks.length).map fun i =>
    holdings.getD i 0 *
      (1 + actualMonthlyReturn scenario
        ((stocks.getD i defaultStock).geometricMean / 12)
        ((stocks.getD i defaultStock).volatility / Real.sqrt 12)
        (generateStandardNormalRandom (randm i).1 (randm i).2))

/-- The simulator's mutable month-to-month state: `currentStockHoldings`
(parallel list), `currentBankHolding`, `cumulativeCapitalInvested`. -/
structure SimState where
  holdings : List ℝ
  bank : ℝ
  cumulative : ℝ

/-- One iteration of the monthly simulation loop (source lines 496-595):
grow holdings and bank, add the deposit, rebalance through
`calculateAllocation` (falling back on failure, or wiping to the bank on a
non-positive total), clamp risky holdings at 0, and record the month with
its display-rounded bank/total/cumulative fields. -/
noncomputable def simulateMonth (stocks : List Stock) (bankAccount : BankAccount)
    (targetOverallVolatility correlation monthlyDeposit : ℝ)
    (scenario : ScenarioType) (randm : ℕ → ℝ × ℝ) (m : ℕ) (s : SimState) :
    SimState × MonthlySimulatedPortfolioState :=
  let grownStockHoldings := growHoldings stocks scenario randm s.holdings
  let grownBankHolding := s.bank * (1 + bankAccount.interestRate / 12)
  let valueAfterGrowth := grownStockHoldings.sum + grownBankHolding
  let cumulativeCapitalInvested := s.cumulative + monthlyDeposit
  let totalCapitalForReallocation := valueAfterGrowth + monthlyDeposit
  let next : List ℝ × ℝ :=
    if 0 < totalCapitalForReallocation then
      match calculateAllocation totalCapitalForReallocation stocks bankAccount
          targetOverallVolatility correlation with
      | .ok newAlloc =>
          (newAlloc.stocks.map StockAllocationResult.amount, newAlloc.bankAllocation.amount)
      | .error _ =>
          (grownStockHoldings, totalCapitalForReallocation - grownStockHoldings.sum)
    else
      (stocks.map fun _ => (0 : ℝ), totalCapitalForReallocation)
  let currentStockHoldings := next.1.map fun x => max 0 x
  let currentBankHolding := next.2
  let currentTotalValue := currentStockHoldings.sum + currentBankHolding
  (⟨currentStockHoldings, currentBankHolding, cumulativeCapitalInvested⟩,
   { month := m
     stockValues := currentStockHoldings
     bankValue := round2 currentBankHolding
     totalPortfolioValue := round2 currentTotalValue
     totalCapitalInvested := round2 cumulativeCapitalInvested })

/-- The month-0 setup (source lines 463-483): initial allocation when
`initialInvestment > 0`, falling back to an all-bank position if the
allocation fails. -/
noncomputable def initialSimState (initialInvestment : ℝ) (stocks : List Stock)
    (bankAccount : BankAccount) (targetOverallVolatility correlation : ℝ) :
    SimState :=
  if 0 < initialInvestment then
    match calculateAllocation initialInvestment stocks bankAccount
        targetOverallVolatility correlation with
    | .ok initialAlloc =>
        ⟨initialAlloc.stocks.map StockAllocationResult.amount,
          initialAlloc.bankAllocation.amount, initialInvestment⟩
    | .error _ =>
        ⟨stocks.map fun _ => (0 : ℝ), initialInvestment, initialInvestment⟩
  else ⟨stocks.map fun _ => (0 : ℝ), 0, 0⟩

/-- The monthly loop, months `startMonth, startMonth+1, ...`, `remaining`
iterations, threading the simulator state. -/
noncomputable def simulateLoop (stocks : List Stock) (bankAccount : BankAccount)
    (targetOverallVolatility correlation monthlyDeposit : ℝ)
    (scenario : ScenarioType) (rand : ℕ → ℕ → ℝ × ℝ) (s : SimState)
    (startMonth : ℕ) : (remaining : ℕ) → List MonthlySimulatedPortfolioState
  | 0 => []
  | Nat.succ n =>
    let step := simulateMonth stocks bankAccount targetOverallVolatility
      correlation monthlyDeposit scenario (rand startMonth) startMonth s
    step.2 :: simulateLoop stocks bankAccount targetOverallVolatility
      correlation monthlyDeposit scenario rand step.1 (startMonth + 1) n

/-- `AdvancedPortfolioSimulator.simulateInvestmentStrategy`
(source lines 442-597).  `rand` supplies the uniform draws consumed by
`generateStandardNormalRandom`, indexed by (month, stock index).  The
month-0 record stores its fields unrounded (source lines 485-491). -/
noncomputable def simulateInvestmentStrategy (initialInvestment monthlyDeposit : ℝ)
    (stocks : List Stock) (bankAccount : BankAccount)
    (targetOverallVolatility : ℝ) (durationInMonths : ℕ)
    (scenario : ScenarioType) (correlation : ℝ) (rand : ℕ → ℕ → ℝ × ℝ) :
    Except SimError (List MonthlySimulatedPortfolioState) :=
  if initialInvestment < 0 then .error .negativeInitialInvestment
  else if monthlyDeposit < 0 then .error .negativeMonthlyDeposit
  else if stocks = [] ∧ 0 < targetOverallVolatility then
    .error .noStocksForTargetVolatility
  else
    let s0 := initialSimState initialInvestment stocks bankAccount
      targetOverallVolatility correlation
    .ok ({ month := 0
           stockValues := s0.holdings
           bankValue := s0.bank
           totalPortfolioValue := s0.holdings.sum + s0.bank
           totalCapitalInvested := s0.cumulative } ::
      simulateLoop stocks bankAccount targetOverallVolatility correlation
        monthlyDeposit scenario rand s0 1 durationInMonths)

/-! ## Basket-weight lemmas -/

lemma filter_pos_sum_nonneg (rs : List ℝ) :
    0 ≤ (rs.filter fun r => decide (0 < r)).sum := by
  induction rs with
  | nil => simp
  | cons a as ih =>
    rw [List.filter_cons]
    by_cases h : (0 : ℝ) < a
    · simpa [h] using add_nonneg h.le ih
    · simpa [h] using ih

lemma filter_pos_sum_eq_zero_iff (rs : List ℝ) :
    (rs.filter fun r => decide (0 < r)).sum = 0 ↔ ∀ r ∈ rs, r ≤ 0 := by
  constructor
  · intro h r hr
    by_contra hpos
    push_neg at hpos
    have hmem : r ∈ rs.filter fun r => decide (0 < r) := by
      simp [List.mem_filter, hr, hpos]
    have hle : r ≤ (rs.filter fun r => decide (0 < r)).sum :=
      List.single_le_sum (fun x hx => ((List.mem_filter.mp hx).2 |> of_decide_eq_true).le)
        r hmem
    nlinarith
  · intro h
    have : (rs.filter fun r => decide (0 < r)) = [] := by
      rw [List.filter_eq_nil]
      intro a ha
      simp [not_lt.mpr (h a ha)]
    simp [this]

lemma sum_map_pos_div (rs : List ℝ) (S : ℝ) :
    (rs.map fun r => if 0 < r then r / S else 0).sum =
      (rs.filter fun r => decide (0 < r)).sum / S := by
  induction rs with
  | nil => simp
  | cons a as ih =>
    rw [List.map_cons, List.sum_cons, List.filter_cons]
    by_cases h : (0 : ℝ) < a
    · have hb : decide (0 < a) = true := decide_eq_true h
      rw [if_pos h, if_pos hb, List.sum_cons, add_div, ih]
    · have hb : ¬decide (0 < a) = true := by simpa using h
      rw [if_neg h, if_neg hb, ih, zero_add]

lemma sum_map_const_inv_length (rs : List ℝ) (hne : rs ≠ []) :
    (rs.map fun _ => 1 / (rs.length : ℝ)).sum = 1 := by
  have hlen : (rs.length : ℝ) ≠ 0 := by
    simpa using List.length_pos.mpr hne |>.ne'
  rw [List.map_const', List.sum_replicate, nsmul_eq_mul]
  field_simp

lemma calculateBasketWeights_ok_iff (rs : List ℝ) (ns : List String) (ws : List ℝ) :
    calculateBasketWeights rs ns = Except.ok ws ↔
      ((∀ r ∈ rs, r ≤ 0) ∧
        ws = (if 0 < rs.length then rs.map fun _ => 1 / (rs.length : ℝ) else [])) ∨
      ((∃ r ∈ rs, 0 < r) ∧
        ws = rs.map fun ratio =>
          if 0 < ratio then ratio / (rs.filter fun r => decide (0 < r)).sum else 0) := by
  unfold calculateBasketWeights
  by_cases hS : (rs.filter fun r => decide (0 < r)).sum = 0
  · have hall : ∀ r ∈ rs, r ≤ 0 := (filter_pos_sum_eq_zero_iff rs).mp hS
    rw [if_pos hS, if_pos hall]
    constructor
    · intro h
      exact Or.inl ⟨hall, (Except.ok.inj h).symm⟩
    · rintro (⟨_, rfl⟩ | ⟨⟨r, hr, hpos⟩, rfl⟩)
      · rfl
      · exact absurd (hall r hr) (not_le.mpr hpos)
  · have hnotall : ¬ ∀ r ∈ rs, r ≤ 0 := by
      intro hall
      exact hS ((filter_pos_sum_eq_zero_iff rs).mpr hall)
    have hex : ∃ r ∈ rs, 0 < r := by
      by_contra hno
      push_neg at hno
      exact hnotall fun r hr => (hno r hr)
    rw [if_neg hS]
    constructor
    · intro h
      exact Or.inr ⟨hex, (Except.ok.inj h).symm⟩
    · rintro (⟨hall, rfl⟩ | ⟨_, rfl⟩)
      · exact absurd hall hnotall
      · rfl

lemma calculateBasketWeights_ok_length {rs : List ℝ} {ns : List String} {ws : List ℝ}
    (h : calculateBasketWeights rs ns = Except.ok ws) : ws.length = rs.length := by
  rcases (calculateBasketWeights_ok_iff rs ns ws).mp h with ⟨hall, hw⟩ | ⟨hex, hw⟩
  · by_cases hlen : 0 < rs.length
    · simp [hw, hlen]
    · have : rs.length = 0 := Nat.eq_zero_of_not_pos hlen
      simp [hw, hlen, this]
  · simp [hw]

lemma calculateBasketWeights_ok_sum_one {rs : List ℝ} {ns : List String} {ws : List ℝ}
    (hne : rs ≠ []) (h : calculateBasketWeights rs ns = Except.ok ws) : ws.sum = 1 := by
  rcases (calculateBasketWeights_ok_iff rs ns ws).mp h with ⟨hall, hw⟩ | ⟨hex, hw⟩
  · have hlen : 0 < rs.length := List.length_pos.mpr hne
    rw [hw, if_pos hlen]
    exact sum_map_const_inv_length rs hne
  · have hS : (rs.filter fun r => decide (0 < r)).sum ≠ 0 := by
      rw [Ne, filter_pos_sum_eq_zero_iff]
      rintro hall
      rcases hex with ⟨r, hr, hpos⟩
      exact absurd (hall r hr) (not_le.mpr hpos)
    rw [hw, sum_map_pos_div, div_self hS]

lemma calculateBasketWeights_ok_nonneg {rs : List ℝ} {ns : List String} {ws : List ℝ}
    (h : calculateBasketWeights rs ns = Except.ok ws) : ∀ w ∈ ws, 0 ≤ w := by
  rcases (calculateBasketWeights_ok_iff rs ns ws).mp h with ⟨hall, hw⟩ | ⟨hex, hw⟩
  · intro w hwmem
    by_cases hlen : 0 < rs.length
    · rw [hw, if_pos hlen] at hwmem
      rcases List.mem_map.mp hwmem with ⟨r, _, rfl⟩
      positivity
    · rw [hw, if_neg hlen] at hwmem
      simp at hwmem
  · intro w hwmem
    rw [hw] at hwmem
    rcases List.mem_map.mp hwmem with ⟨r, _, rfl⟩
    by_cases hr : 0 < r
    · have hS : 0 < (rs.filter fun r => decide (0 < r)).sum := by
        rcases lt_or_eq_of_le (filter_pos_sum_nonneg rs) with h' | h'
        · exact h'
        · exfalso
          rcases hex with ⟨x, hx, hxpos⟩
          exact absurd ((filter_pos_sum_eq_zero_iff rs).mp h'.symm x hx) (not_le.mpr hxpos)
      simp only [hr, if_true]
      positivity
    · simp [hr]

/-- C10: over the reals, the sum of the positive Sharpe ratios vanishes
exactly when no ratio is positive, so `calculateBasketWeights` never reaches
its `DegenerateSharpeWeights` throw: it succeeds on every ratio list
(in particular on `calculateStockSharpeRatios stocks rf` for every
precondition-satisfying input). -/
theorem calculateBasketWeights_never_degenerate (rs : List ℝ) (ns : List String) :
    ((rs.filter fun r => decide (0 < r)).sum = 0 ↔ ∀ r ∈ rs, r ≤ 0) ∧
    ∃ ws, calculateBasketWeights rs ns = Except.ok ws := by
  refine ⟨filter_pos_sum_eq_zero_iff rs, ?_⟩
  by_cases hall : ∀ r ∈ rs, r ≤ 0
  · exact ⟨_, (calculateBasketWeights_ok_iff rs ns _).mpr (Or.inl ⟨hall, rfl⟩)⟩
  · push_neg at hall
    rcases hall with ⟨r, hr, hpos⟩
    exact ⟨_, (calculateBasketWeights_ok_iff rs ns _).mpr
      (Or.inr ⟨⟨r, hr, hpos⟩, rfl⟩)⟩

/-- C4: the basket weights are the Sharpe ratios normalized over the sum of
the positive Sharpe ratios, non-positive ratios receiving weight exactly 0;
and when every Sharpe ratio is non-positive the engine returns equal weights
`1/n` over all `n` stocks instead of failing. -/
theorem calculateBasketWeights_of_sharpe (stocks : List Stock) (rf : ℝ)
    (ns : List String) :
    ((∃ r ∈ calculateStockSharpeRatios stocks rf, 0 < r) →
      calculateBasketWeights (calculateStockSharpeRatios stocks rf) ns =
        Except.ok ((calculateStockSharpeRatios stocks rf).map fun ratio =>
          if 0 < ratio then
            ratio / ((calculateStockSharpeRatios stocks rf).filter
              fun r => decide (0 < r)).sum
          else 0)) ∧
    ((∀ r ∈ calculateStockSharpeRatios stocks rf, r ≤ 0) → stocks ≠ [] →
      calculateBasketWeights (calculateStockSharpeRatios stocks rf) ns =
        Except.ok ((calculateStockSharpeRatios stocks rf).map fun _ =>
          1 / (stocks.length : ℝ))) := by
  constructor
  · intro hex
    exact (calculateBasketWeights_ok_iff _ ns _).mpr (Or.inr ⟨hex, rfl⟩)
  · intro hall hne
    have hlenrs : (calculateStockSharpeRatios stocks rf).length = stocks.length := by
      simp [calculateStockSharpeRatios]
    have hlen : 0 < (calculateStockSharpeRatios stocks rf).length := by
      rw [hlenrs]
      exact List.length_pos.mpr hne
    have := (calculateBasketWeights_ok_iff (calculateStockSharpeRatios stocks rf) ns
      ((calculateStockSharpeRatios stocks rf).map fun _ =>
        1 / ((calculateStockSharpeRatios stocks rf).length : ℝ))).mpr
      (Or.inl ⟨hall, by rw [if_pos hlen]⟩)
    rw [hlenrs] at this
    exact this

/-! ## Allocation inversion lemmas -/

lemma validateInputs_ok_iff (t : ℝ) (stocks : List Stock) (bank : BankAccount)
    (target corr : ℝ) :
    validateInputs t stocks bank target corr = Except.ok () ↔
      (0 ≤ t ∧ (∀ s ∈ stocks, 0 < s.volatility ∧ s.name ≠ "") ∧
        MIN_INTEREST_RATE ≤ bank.interestRate ∧
        bank.interestRate ≤ MAX_INTEREST_RATE ∧
        0 ≤ target ∧ -1 ≤ corr ∧ corr ≤ 1) := by
  unfold validateInputs
  split_ifs with h1 h2 h3 h4 h5
  · constructor
    · intro h
      exact h.elim
    · rintro ⟨h, -⟩
      exact absurd h1 (not_lt.mpr h)
  · constructor
    · intro h
      exact h.elim
    · rintro ⟨-, hs, -⟩
      rcases h2 with ⟨s, hmem, hbad⟩
      rcases hs s hmem with ⟨hv, hn⟩
      rcases hbad with hb | hb
      · linarith
      · exact hn hb
  · constructor
    · intro h
      exact h.elim
    · rintro ⟨-, -, hmin, hmax, -⟩
      rcases h3 with hb | hb <;> linarith
  · constructor
    · intro h
      exact h.elim
    · rintro ⟨-, -, -, -, ht, -⟩
      exact absurd h4 (not_lt.mpr ht)
  · constructor
    · intro h
      exact h.elim
    · rintro ⟨-, -, -, -, -, hc1, hc2⟩
      rcases h5 with hb | hb <;> linarith
  · push_neg at h1 h2 h3 h4 h5
    exact ⟨fun _ => ⟨h1, h2, h3.1, h3.2, h4, h5.1, h5.2⟩, fun _ => rfl⟩

lemma calculateAllocation_ok_inv {t : ℝ} {stocks : List Stock}
    {bank : BankAccount} {target corr : ℝ} {r : PortfolioAllocationResult}
    (h : calculateAllocation t stocks bank target corr = Except.ok r) :
    validateInputs t stocks bank target corr = Except.ok () ∧
    ((stocks = [] ∧ target = 0 ∧ r = emptyStocksResult t bank) ∨
     (stocks ≠ [] ∧ ∃ ws w,
        calculateBasketWeights (calculateStockSharpeRatios stocks bank.interestRate)
          (stocks.map Stock.name) = Except.ok ws ∧
        basketWeightInPortfolioResult
          (calculateBasketMetrics stocks ws bank.interestRate corr) target
          bank.interestRate = Except.ok w ∧
        r = assembleResult t stocks bank target ws
          (calculateBasketMetrics stocks ws bank.interestRate corr) w)) := by
  unfold calculateAllocation at h
  cases hv : validateInputs t stocks bank target corr with
  | error e =>
    rw [hv] at h
    exact Except.noConfusion h
  | ok u =>
    cases u
    rw [hv] at h
    simp only [] at h
    by_cases hemp : stocks = []
    · rw [if_pos hemp] at h
      by_cases htar : target = 0
      · rw [if_pos htar] at h
        exact ⟨rfl, Or.inl ⟨hemp, htar, (Except.ok.inj h).symm⟩⟩
      · rw [if_neg htar] at h
        exact Except.noConfusion h
    · rw [if_neg hemp] at h
      cases hw : calculateBasketWeights
          (calculateStockSharpeRatios stocks bank.interestRate)
          (stocks.map Stock.name) with
      | error e =>
        rw [hw] at h
        exact Except.noConfusion h
      | ok ws =>
        rw [hw] at h
        simp only [] at h
        cases hbw : basketWeightInPortfolioResult
            (calculateBasketMetrics stocks ws bank.interestRate corr) target
            bank.interestRate with
        | error e =>
          rw [hbw] at h
          exact Except.noConfusion h
        | ok w =>
          rw [hbw] at h
          exact ⟨rfl, Or.inr ⟨hemp, ws, w, rfl, hbw, (Except.ok.inj h).symm⟩⟩

lemma map_amount_zipWith_sum (c bwip : ℝ) :
    ∀ (stocks : List Stock) (ws : List ℝ), ws.length = stocks.length →
    ((List.zipWith (fun (stock : Stock) (w : ℝ) =>
        ({ name := stock.name, amount := c * w, weightInBasket := w * 100,
           weightInTotal := w * bwip * 100 } : StockAllocationResult))
      stocks ws).map StockAllocationResult.amount).sum = c * ws.sum
  | [], [], _ => by simp
  | [], w :: ws, h => by simp at h
  | s :: ss, [], h => by simp at h
  | s :: ss, w :: ws, h => by
    have hlen : ws.length = ss.length := by simpa using h
    simp only [List.zipWith_cons_cons, List.map_cons, List.sum_cons, List.sum_cons]
    rw [map_amount_zipWith_sum c bwip ss ws hlen, mul_add]

lemma assembleResult_amounts_sum {t target : ℝ} {stocks : List Stock}
    {bank : BankAccount} {ws : List ℝ} {bm : BasketMetrics} {w : ℝ}
    (hlen : ws.length = stocks.length) :
    (((assembleResult t stocks bank target ws bm w).stocks.map
      StockAllocationResult.amount).sum) = t * w * ws.sum := by
  unfold assembleResult
  exact map_amount_zipWith_sum (t * w) w stocks ws hlen

lemma calculateBasketMetrics_volatility_nil (ws : List ℝ) (rf corr : ℝ) :
    (calculateBasketMetrics [] ws rf corr).volatility = 0 := by
  simp [calculateBasketMetrics, basketVariance]

lemma calculateBasketMetrics_expectedReturn_nil (ws : List ℝ) (rf corr : ℝ) :
    (calculateBasketMetrics [] ws rf corr).expectedReturn = 0 := by
  simp [calculateBasketMetrics, basketExpectedReturn]

/-- C1: for inputs satisfying the validated preconditions, a successful
`calculateAllocation` returns per-asset dollar amounts summing to
`totalAmount × basketWeightInPortfolio` within 1e-6 relative tolerance
(the real-valued embedding in fact gives exact equality), and the per-asset
amounts plus the risk-free amount sum to `totalAmount` within 1e-6. -/
theorem calculateAllocation_amounts_sum (t target corr : ℝ) (stocks : List Stock)
    (bank : BankAccount) (r : PortfolioAllocationResult) (ws : List ℝ) (w : ℝ)
    (htA : 0 ≤ t)
    (hstocks : ∀ s ∈ stocks, 0 < s.volatility ∧ s.name ≠ "")
    (hmin : MIN_INTEREST_RATE ≤ bank.interestRate)
    (hmax : bank.interestRate ≤ MAX_INTEREST_RATE)
    (htarget : 0 ≤ target) (hcorr1 : -1 ≤ corr) (hcorr2 : corr ≤ 1)
    (hws : calculateBasketWeights (calculateStockSharpeRatios stocks bank.interestRate)
      (stocks.map Stock.name) = Except.ok ws)
    (hw : basketWeightInPortfolioResult
      (calculateBasketMetrics stocks ws bank.interestRate corr) target
      bank.interestRate = Except.ok w)
    (hok : calculateAllocation t stocks bank target corr = Except.ok r) :
    |((r.stocks.map StockAllocationResult.amount).sum + r.bankAllocation.amount) - t|
        ≤ 1 / 1000000 ∧
    |(r.stocks.map StockAllocationResult.amount).sum - t * w|
        ≤ (1 / 1000000) * |t * w| := by
  rcases calculateAllocation_ok_inv hok with ⟨hval, hcase⟩
  rcases hcase with ⟨hemp, htar0, hr⟩ | ⟨hne, ws2, w2, hws2, hw2, hr⟩
  · subst hemp
    subst hr
    have hrf : (0 : ℝ) < bank.interestRate :=
      lt_of_lt_of_le (by norm_num [MIN_INTEREST_RATE]) hmin
    have hw0 : w = 0 := by
      unfold basketWeightInPortfolioResult at hw
      rw [if_pos (calculateBasketMetrics_volatility_nil ws bank.interestRate corr),
        if_pos htar0] at hw
      have hinj := Except.ok.inj hw
      rw [calculateBasketMetrics_expectedReturn_nil ws bank.interestRate corr,
        if_neg (not_lt.mpr hrf.le)] at hinj
      exact hinj.symm
    subst hw0
    constructor
    · simp [emptyStocksResult]
    · simp [emptyStocksResult]
  · have hwseq : ws2 = ws := Except.ok.inj (hws2.symm.trans hws)
    rw [hwseq] at hw2 hr
    have hweq : w2 = w := Except.ok.inj (hw2.symm.trans hw)
    rw [hweq] at hr
    subst hr
    have hrsne : calculateStockSharpeRatios stocks bank.interestRate ≠ [] := by
      simpa [calculateStockSharpeRatios] using hne
    have hlen : ws.length = stocks.length := by
      have h1 := calculateBasketWeights_ok_length hws
      simpa [calculateStockSharpeRatios] using h1
    have hsum1 : ws.sum = 1 := calculateBasketWeights_ok_sum_one hrsne hws
    have hs : (((assembleResult t stocks bank target ws
        (calculateBasketMetrics stocks ws bank.interestRate corr) w).stocks.map
        StockAllocationResult.amount).sum) = t * w := by
      rw [assembleResult_amounts_sum hlen, hsum1, mul_one]
    have hb : (assembleResult t stocks bank target ws
        (calculateBasketMetrics stocks ws bank.interestRate corr)
        w).bankAllocation.amount = t * (1 - w) := rfl
    rw [hs, hb]
    constructor
    · have he : t * w + t * (1 - w) - t = 0 := by ring
      rw [he, abs_zero]
      norm_num
    · rw [sub_self, abs_zero]
      positivity

/-- C5: for a validated, non-empty stock list: if the basket volatility is
positive the basket weight-in-portfolio is `targetVolatility /
basketVolatility` (and the risk-free side carries weight `1 - w`, amount
`totalAmount * (1 - w)`); if the basket volatility is 0 and the target is 0
the weight is 1 exactly when the basket return exceeds the risk-free rate
and 0 otherwise; if the basket volatility is 0 and the target is non-zero,
`calculateAllocation` fails with `UnachievableVolatility`. -/
theorem basketWeightInPortfolio_cases (t target corr : ℝ) (stocks : List Stock)
    (bank : BankAccount) (ws : List ℝ)
    (hval : validateInputs t stocks bank target corr = Except.ok ())
    (hne : stocks ≠ [])
    (hws : calculateBasketWeights (calculateStockSharpeRatios stocks bank.interestRate)
      (stocks.map Stock.name) = Except.ok ws) :
    (0 < (calculateBasketMetrics stocks ws bank.interestRate corr).volatility →
      basketWeightInPortfolioResult
        (calculateBasketMetrics stocks ws bank.interestRate corr) target
        bank.interestRate =
        Except.ok (target /
          (calculateBasketMetrics stocks ws bank.interestRate corr).volatility)) ∧
    ((calculateBasketMetrics stocks ws bank.interestRate corr).volatility = 0 →
      target = 0 →
      basketWeightInPortfolioResult
        (calculateBasketMetrics stocks ws bank.interestRate corr) target
        bank.interestRate =
        Except.ok (if bank.interestRate <
            (calculateBasketMetrics stocks ws bank.interestRate corr).expectedReturn
          then 1 else 0)) ∧
    ((calculateBasketMetrics stocks ws bank.interestRate corr).volatility = 0 →
      target ≠ 0 →
      calculateAllocation t stocks bank target corr =
        Except.error AllocError.unachievableVolatility) ∧
    (∀ r w, calculateAllocation t stocks bank target corr = Except.ok r →
      basketWeightInPortfolioResult
        (calculateBasketMetrics stocks ws bank.interestRate corr) target
        bank.interestRate = Except.ok w →
      r.bankAllocation.amount = t * (1 - w) ∧
      r.bankAllocation.weightInTotal = (1 - w) * 100) := by
  refine ⟨?_, ?_, ?_, ?_⟩
  · intro hvol
    unfold basketWeightInPortfolioResult
    rw [if_neg hvol.ne']
  · intro hvol htar0
    unfold basketWeightInPortfolioResult
    rw [if_pos hvol, if_pos htar0]
  · intro hvol htar
    have hbw : basketWeightInPortfolioResult
        (calculateBasketMetrics stocks ws bank.interestRate corr) target
        bank.interestRate = Except.error AllocError.unachievableVolatility := by
      unfold basketWeightInPortfolioResult
      rw [if_pos hvol, if_neg htar]
    unfold calculateAllocation
    rw [hval]
    simp only []
    rw [if_neg hne, hws]
    simp only []
    rw [hbw]
  · intro r w hok hw
    rcases calculateAllocation_ok_inv hok with ⟨-, hcase⟩
    rcases hcase with ⟨hemp, -, -⟩ | ⟨-, ws2, w2, hws2, hw2, hr⟩
    · exact absurd hemp hne
    · have hwseq : ws2 = ws := Except.ok.inj (hws2.symm.trans hws)
      rw [hwseq] at hw2 hr
      have hweq : w2 = w := Except.ok.inj (hw2.symm.trans hw)
      rw [hweq] at hr
      subst hr
      exact ⟨rfl, rfl⟩

/-- C6: with an empty asset list passing the other validations,
`calculateAllocation` with target volatility 0 puts the whole amount in the
risk-free account (weight-in-total 100 when the amount is positive, else 0)
with no per-asset entries, and with positive target volatility it fails
with `UnachievableVolatility`. -/
theorem calculateAllocation_empty_stocks (t target corr : ℝ) (bank : BankAccount)
    (hval : validateInputs t [] bank target corr = Except.ok ()) :
    (target = 0 →
      calculateAllocation t [] bank target corr =
        Except.ok (emptyStocksResult t bank) ∧
      (emptyStocksResult t bank).stocks = [] ∧
      (emptyStocksResult t bank).bankAllocation.amount = t ∧
      (emptyStocksResult t bank).bankAllocation.weightInTotal =
        (if 0 < t then 100 else 0)) ∧
    (0 < target →
      calculateAllocation t [] bank target corr =
        Except.error AllocError.unachievableVolatility) := by
  constructor
  · intro htar0
    refine ⟨?_, rfl, rfl, rfl⟩
    unfold calculateAllocation
    rw [hval]
    simp only []
    rw [if_pos trivial, if_pos htar0]
  · intro htar
    unfold calculateAllocation
    rw [hval]
    simp only []
    rw [if_pos trivial, if_neg htar.ne']

/-! ## Simulation lemmas -/

lemma round2_idem (x : ℝ) : round2 (round2 x) = round2 x := by
  unfold round2
  have h1 : ((⌊x * 100 + 1 / 2⌋ : ℝ) / 100) * 100 = ((⌊x * 100 + 1 / 2⌋ : ℤ) : ℝ) := by
    field_simp
  rw [h1]
  have h2 : ⌊((⌊x * 100 + 1 / 2⌋ : ℤ) : ℝ) + 1 / 2⌋ = ⌊x * 100 + 1 / 2⌋ + ⌊(1 / 2 : ℝ)⌋ :=
    Int.floor_int_add _ _
  have h3 : ⌊(1 / 2 : ℝ)⌋ = 0 := by
    rw [Int.floor_eq_zero_iff]
    constructor <;> norm_num
  rw [h2, h3, add_zero]

lemma one_add_max_neg_one_nonneg (y : ℝ) : 0 ≤ 1 + max (-1) y := by
  have := le_max_left (-1 : ℝ) y
  linarith

lemma one_add_actualMonthlyReturn_nonneg (scen : ScenarioType) (mer mv r : ℝ) :
    0 ≤ 1 + actualMonthlyReturn scen mer mv r := by
  unfold actualMonthlyReturn
  exact one_add_max_neg_one_nonneg _

lemma getD_nonneg {l : List ℝ} (h : ∀ x ∈ l, 0 ≤ x) (i : ℕ) : 0 ≤ l.getD i 0 := by
  rcases lt_or_le i l.length with hi | hi
  · rw [List.getD_eq_getElem?_getD, List.getElem?_eq_getElem hi]
    exact h _ (List.getElem_mem hi)
  · rw [List.getD_eq_getElem?_getD, List.getElem?_eq_none hi]
    exact le_refl 0

lemma growHoldings_nonneg {stocks : List Stock} {scen : ScenarioType}
    {randm : ℕ → ℝ × ℝ} {holdings : List ℝ} (h : ∀ x ∈ holdings, 0 ≤ x) :
    ∀ y ∈ growHoldings stocks scen randm holdings, 0 ≤ y := by
  intro y hy
  unfold growHoldings at hy
  rcases List.mem_map.mp hy with ⟨i, -, rfl⟩
  exact mul_nonneg (getD_nonneg h i) (one_add_actualMonthlyReturn_nonneg ..)

lemma exists_of_mem_zipWith {α β γ : Type _} (f : α → β → γ) :
    ∀ (l1 : List α) (l2 : List β) (c : γ), c ∈ List.zipWith f l1 l2 →
      ∃ a b, a ∈ l1 ∧ b ∈ l2 ∧ c = f a b
  | [], _, c, h => by simp at h
  | a :: l1, [], c, h => by simp at h
  | a :: l1, b :: l2, c, h => by
    rw [List.zipWith_cons_cons, List.mem_cons] at h
    rcases h with rfl | h
    · exact ⟨a, b, List.mem_cons_self a l1, List.mem_cons_self b l2, rfl⟩
    · rcases exists_of_mem_zipWith f l1 l2 c h with ⟨a2, b2, h1, h2, h3⟩
      exact ⟨a2, b2, List.mem_cons_of_mem _ h1, List.mem_cons_of_mem _ h2, h3⟩

lemma calculateBasketMetrics_volatility (stocks : List Stock) (ws : List ℝ)
    (rf corr : ℝ) :
    (calculateBasketMetrics stocks ws rf corr).volatility =
      Real.sqrt (basketVariance stocks ws corr) := rfl

lemma basketWeightInPortfolioResult_ok_nonneg {bm : BasketMetrics}
    {target rf w : ℝ} (hvol : 0 ≤ bm.volatility) (htar : 0 ≤ target)
    (h : basketWeightInPortfolioResult bm target rf = Except.ok w) : 0 ≤ w := by
  unfold basketWeightInPortfolioResult at h
  split_ifs at h with h1 h2 h3
  · rw [← Except.ok.inj h]
    norm_num
  · rw [← Except.ok.inj h]
  · rw [← Except.ok.inj h]
    exact div_nonneg htar hvol

lemma calculateAllocation_ok_amounts_nonneg {t : ℝ} {stocks : List Stock}
    {bank : BankAccount} {target corr : ℝ} {r : PortfolioAllocationResult}
    (h : calculateAllocation t stocks bank target corr = Except.ok r) :
    ∀ a ∈ r.stocks, 0 ≤ a.amount := by
  rcases calculateAllocation_ok_inv h with ⟨hval, hcase⟩
  have hpre := (validateInputs_ok_iff t stocks bank target corr).mp hval
  rcases hcase with ⟨-, -, rfl⟩ | ⟨hne, ws, w, hws, hw, rfl⟩
  · intro a ha
    simp [emptyStocksResult] at ha
  · intro a ha
    rcases exists_of_mem_zipWith _ stocks ws a ha with ⟨s, wi, -, hwi, rfl⟩
    have ht : 0 ≤ t := hpre.1
    have hwnon : 0 ≤ w := by
      refine basketWeightInPortfolioResult_ok_nonneg ?_ hpre.2.2.2.2.1 hw
      rw [calculateBasketMetrics_volatility]
      exact Real.sqrt_nonneg _
    have hwi0 : 0 ≤ wi := calculateBasketWeights_ok_nonneg hws wi hwi
    have : (0 : ℝ) ≤ t * w * wi := by positivity
    simpa using this

lemma initialSimState_holdings_nonneg (init : ℝ) (stocks : List Stock)
    (bank : BankAccount) (target corr : ℝ) :
    ∀ x ∈ (initialSimState init stocks bank target corr).holdings, 0 ≤ x := by
  unfold initialSimState
  split_ifs with h
  · cases halloc : calculateAllocation init stocks bank target corr with
    | ok a =>
      simp only [halloc]
      intro x hx
      rcases List.mem_map.mp hx with ⟨sa, hsa, rfl⟩
      exact calculateAllocation_ok_amounts_nonneg halloc sa hsa
    | error e =>
      simp only [halloc]
      intro x hx
      rcases List.mem_map.mp hx with ⟨-, -, rfl⟩
      exact le_refl 0
  · intro x hx
    rcases List.mem_map.mp hx with ⟨-, -, rfl⟩
    exact le_refl 0

lemma initialSimState_cumulative {init : ℝ} (stocks : List Stock)
    (bank : BankAccount) (target corr : ℝ) (hinit : 0 ≤ init) :
    (initialSimState init stocks bank target corr).cumulative = init := by
  unfold initialSimState
  split_ifs with h
  · cases calculateAllocation init stocks bank target corr <;> rfl
  · have h0 : init = 0 := le_antisymm (not_lt.mp h) hinit
    rw [h0]

section SimulationParams

variable (stocks : List Stock) (bankAccount : BankAccount)
variable (target corr monthly : ℝ) (scen : ScenarioType)
variable (rand : ℕ → ℕ → ℝ × ℝ)

lemma simulateMonth_record_month (randm : ℕ → ℝ × ℝ) (m : ℕ) (s : SimState) :
    (simulateMonth stocks bankAccount target corr monthly scen randm m s).2.month = m := rfl

lemma simulateMonth_record_stockValues (randm : ℕ → ℝ × ℝ) (m : ℕ) (s : SimState) :
    (simulateMonth stocks bankAccount target corr monthly scen randm m s).2.stockValues =
    (simulateMonth stocks bankAccount target corr monthly scen randm m s).1.holdings := rfl

lemma simulateMonth_cumulative (randm : ℕ → ℝ × ℝ) (m : ℕ) (s : SimState) :
    (simulateMonth stocks bankAccount target corr monthly scen randm m s).1.cumulative =
      s.cumulative + monthly := rfl

lemma simulateMonth_record_cumulative (randm : ℕ → ℝ × ℝ) (m : ℕ) (s : SimState) :
    (simulateMonth stocks bankAccount target corr monthly scen randm m s).2.totalCapitalInvested =
      round2 (s.cumulative + monthly) := rfl

lemma simulateMonth_record_bankValue (randm : ℕ → ℝ × ℝ) (m : ℕ) (s : SimState) :
    (simulateMonth stocks bankAccount target corr monthly scen randm m s).2.bankValue =
      round2 (simulateMonth stocks bankAccount target corr monthly scen randm m s).1.bank := rfl

lemma simulateMonth_record_totalValue (randm : ℕ → ℝ × ℝ) (m : ℕ) (s : SimState) :
    (simulateMonth stocks bankAccount target corr monthly scen randm m s).2.totalPortfolioValue =
      round2 ((simulateMonth stocks bankAccount target corr monthly scen randm m s).1.holdings.sum +
        (simulateMonth stocks bankAccount target corr monthly scen randm m s).1.bank) := rfl

lemma simulateMonth_holdings_nonneg (randm : ℕ → ℝ × ℝ) (m : ℕ) (s : SimState) :
    ∀ x ∈ (simulateMonth stocks bankAccount target corr monthly scen randm m s).1.holdings,
      0 ≤ x := by
  intro x hx
  unfold simulateMonth at hx
  simp only [] at hx
  rcases List.mem_map.mp hx with ⟨y, -, rfl⟩
  exact le_max_left 0 y

lemma simulateLoop_length :
    ∀ (n start : ℕ) (s : SimState),
      (simulateLoop stocks bankAccount target corr monthly scen rand s start n).length = n := by
  intro n
  induction n with
  | zero =>
    intro start s
    rfl
  | succ k ih =>
    intro start s
    unfold simulateLoop
    simp only [List.length_cons]
    rw [ih]

lemma simulateLoop_stockValues_nonneg :
    ∀ (n start : ℕ) (s : SimState) (st : MonthlySimulatedPortfolioState),
      st ∈ simulateLoop stocks bankAccount target corr monthly scen rand s start n →
      ∀ x ∈ st.stockValues, 0 ≤ x := by
  intro n
  induction n with
  | zero =>
    intro start s st hst
    simp [simulateLoop] at hst
  | succ k ih =>
    intro start s st hst
    unfold simulateLoop at hst
    rcases List.mem_cons.mp hst with rfl | h2
    · rw [simulateMonth_record_stockValues]
      exact simulateMonth_holdings_nonneg stocks bankAccount target corr monthly scen _ _ _
    · exact ih (start + 1) _ st h2

lemma simulateLoop_recorded_rounded :
    ∀ (n start : ℕ) (s : SimState) (st : MonthlySimulatedPortfolioState),
      st ∈ simulateLoop stocks bankAccount target corr monthly scen rand s start n →
      round2 st.bankValue = st.bankValue ∧
      round2 st.totalPortfolioValue = st.totalPortfolioValue ∧
      round2 st.totalCapitalInvested = st.totalCapitalInvested := by
  intro n
  induction n with
  | zero =>
    intro start s st hst
    simp [simulateLoop] at hst
  | succ k ih =>
    intro start s st hst
    unfold simulateLoop at hst
    rcases List.mem_cons.mp hst with rfl | h2
    · refine ⟨?_, ?_, ?_⟩
      · rw [simulateMonth_record_bankValue, round2_idem]
      · rw [simulateMonth_record_totalValue, round2_idem]
      · rw [simulateMonth_record_cumulative, round2_idem]
    · exact ih (start + 1) _ st h2

lemma simulateLoop_getElem :
    ∀ (n k start : ℕ) (s : SimState) (st : MonthlySimulatedPortfolioState),
      (simulateLoop stocks bankAccount target corr monthly scen rand s start n)[k]? = some st →
      st.month = start + k ∧
      st.totalCapitalInvested = round2 (s.cumulative + ((k : ℝ) + 1) * monthly) := by
  intro n
  induction n with
  | zero =>
    intro k start s st h
    simp [simulateLoop] at h
  | succ m ih =>
    intro k start s st h
    unfold simulateLoop at h
    cases k with
    | zero =>
      rw [List.getElem?_cons_zero] at h
      obtain rfl := Option.some.inj h
      refine ⟨(simulateMonth_record_month stocks bankAccount target corr monthly scen _ _ _).trans
        (Nat.add_zero start).symm, ?_⟩
      rw [simulateMonth_record_cumulative]
      norm_num
    | succ j =>
      rw [List.getElem?_cons_succ] at h
      have hih := ih j (start + 1) _ st h
      constructor
      · rw [hih.1]
        omega
      · rw [hih.2, simulateMonth_cumulative]
        congr 1
        push_cast
        ring

end SimulationParams

lemma simulateInvestmentStrategy_ok_inv {init monthly : ℝ} {stocks : List Stock}
    {bank : BankAccount} {target : ℝ} {dur : ℕ} {scen : ScenarioType}
    {corr : ℝ} {rand : ℕ → ℕ → ℝ × ℝ} {hist : List MonthlySimulatedPortfolioState}
    (h : simulateInvestmentStrategy init monthly stocks bank target dur scen corr rand =
      Except.ok hist) :
    ¬init < 0 ∧ ¬monthly < 0 ∧ ¬(stocks = [] ∧ 0 < target) ∧
    hist = ({ month := 0
              stockValues := (initialSimState init stocks bank target corr).holdings
              bankValue := (initialSimState init stocks bank target corr).bank
              totalPortfolioValue := (initialSimState init stocks bank target corr).holdings.sum +
                (initialSimState init stocks bank target corr).bank
              totalCapitalInvested := (initialSimState init stocks bank target corr).cumulative } ::
      simulateLoop stocks bank target corr monthly scen rand
        (initialSimState init stocks bank target corr) 1 dur) := by
  unfold simulateInvestmentStrategy at h
  split_ifs at h with h1 h2 h3
  exact ⟨h1, h2, h3, (Except.ok.inj h).symm⟩

lemma map_max_zero_eq {l : List ℝ} (h : ∀ x ∈ l, 0 ≤ x) :
    (l.map fun x => max 0 x) = l := by
  induction l with
  | nil => rfl
  | cons a as ih =>
    rw [List.map_cons, ih fun x hx => h x (List.mem_cons_of_mem a hx),
      max_eq_right (h a (List.mem_cons_self a as))]

/-! ## Claim theorems about the simulation -/

/-- C2 (amended): the cumulative-capital field recorded for month `N` equals
`initialInvestment + N × monthlyDeposit` passed through the 2-decimal
display rounding for `N ≥ 1` (and exactly `initialInvestment` at month 0),
for every random stream and regardless of allocation failures.  The claim's
"exactly" fails for deposits with more than 2 decimals, see the
counterexample. -/
theorem recorded_cumulative_capital (init monthly target corr : ℝ)
    (stocks : List Stock) (bank : BankAccount) (dur : ℕ) (scen : ScenarioType)
    (rand : ℕ → ℕ → ℝ × ℝ) (hist : List MonthlySimulatedPortfolioState)
    (N : ℕ) (st : MonthlySimulatedPortfolioState)
    (hok : simulateInvestmentStrategy init monthly stocks bank target dur scen corr rand =
      Except.ok hist)
    (hN : hist[N]? = some st) :
    st.month = N ∧
    st.totalCapitalInvested =
      (if N = 0 then init else round2 (init + (N : ℝ) * monthly)) := by
  rcases simulateInvestmentStrategy_ok_inv hok with ⟨h1, -, -, rfl⟩
  cases N with
  | zero =>
    rw [List.getElem?_cons_zero] at hN
    obtain rfl := Option.some.inj hN
    exact ⟨rfl, by
      rw [if_pos rfl]
      exact initialSimState_cumulative stocks bank target corr (not_lt.mp h1)⟩
  | succ k =>
    rw [List.getElem?_cons_succ] at hN
    have hih := simulateLoop_getElem stocks bank target corr monthly scen rand dur k 1 _ st hN
    constructor
    · rw [hih.1]
      omega
    · rw [if_neg (Nat.succ_ne_zero k), hih.2,
        initialSimState_cumulative stocks bank target corr (not_lt.mp h1)]
      congr 1
      push_cast
      ring

/-- C3 (amended): every per-asset holding in every recorded state is
non-negative.  The claim's second clause (the risk-free holding can go
negative only after a negative `totalCapitalForReallocation`) is refuted by
the leverage counterexample, where the month-0 allocation already puts the
bank at a negative amount. -/
theorem recorded_risky_holdings_nonneg (init monthly target corr : ℝ)
    (stocks : List Stock) (bank : BankAccount) (dur : ℕ) (scen : ScenarioType)
    (rand : ℕ → ℕ → ℝ × ℝ) (hist : List MonthlySimulatedPortfolioState)
    (st : MonthlySimulatedPortfolioState) (x : ℝ)
    (hok : simulateInvestmentStrategy init monthly stocks bank target dur scen corr rand =
      Except.ok hist)
    (hst : st ∈ hist) (hx : x ∈ st.stockValues) : 0 ≤ x := by
  rcases simulateInvestmentStrategy_ok_inv hok with ⟨-, -, -, rfl⟩
  rcases List.mem_cons.mp hst with rfl | hloop
  · exact initialSimState_holdings_nonneg init stocks bank target corr x hx
  · exact simulateLoop_stockValues_nonneg stocks bank target corr monthly scen rand
      dur 1 _ st hloop x hx

/-- C9 (amended): in every recorded state of month at least 1, the bank
value, the total portfolio value and the cumulative capital are fixed
points of the 2-decimal display rounding (they are recorded through
`toFixed(2)`).  The claim's universal statement - every numeric field of
every state rounded - is refuted by the counterexample: per-asset holdings
and the whole month-0 record are stored unrounded. -/
theorem recorded_rounding_from_month_one (init monthly target corr : ℝ)
    (stocks : List Stock) (bank : BankAccount) (dur : ℕ) (scen : ScenarioType)
    (rand : ℕ → ℕ → ℝ × ℝ) (hist : List MonthlySimulatedPortfolioState)
    (st : MonthlySimulatedPortfolioState)
    (hok : simulateInvestmentStrategy init monthly stocks bank target dur scen corr rand =
      Except.ok hist)
    (hst : st ∈ hist) (hm : 1 ≤ st.month) :
    round2 st.bankValue = st.bankValue ∧
    round2 st.totalPortfolioValue = st.totalPortfolioValue ∧
    round2 st.totalCapitalInvested = st.totalCapitalInvested := by
  rcases simulateInvestmentStrategy_ok_inv hok with ⟨-, -, -, rfl⟩
  rcases List.mem_cons.mp hst with rfl | hloop
  · simp at hm
  · exact simulateLoop_recorded_rounded stocks bank target corr monthly scen rand
      dur 1 _ st hloop

/-- C7: the applied monthly return is the scenario-adjusted mean plus the
shock times the scenario-adjusted volatility, clamped below at -1; in BEST
the mean is boosted by 1.5, the volatility scaled by 0.6 and the shock is
the absolute value of the sample, so the BEST return is at least the
boosted mean; every clipped normal sample lies in `[-3.5, 3.5]`; and the
simulation's grown holding for stock `i` is the prior holding times
`1 + actualMonthlyReturn`. -/
theorem monthly_return_formula (mer mv r u v : ℝ) (stocks : List Stock)
    (scenario : ScenarioType) (randm : ℕ → ℝ × ℝ) (holdings : List ℝ) (i : ℕ)
    (hi : i < stocks.length) (hmv : 0 ≤ mv) :
    actualMonthlyReturn ScenarioType.AVERAGE mer mv r = max (-1) (mer + r * mv) ∧
    actualMonthlyReturn ScenarioType.WORST mer mv r =
      max (-1) ((mer * 0.3 + -0.0075) + r * (mv * 1.25)) ∧
    actualMonthlyReturn ScenarioType.BEST mer mv r =
      max (-1) (mer * 1.5 + |r| * (mv * 0.6)) ∧
    mer * 1.5 ≤ actualMonthlyReturn ScenarioType.BEST mer mv r ∧
    -3.5 ≤ generateStandardNormalRandom u v ∧
    generateStandardNormalRandom u v ≤ 3.5 ∧
    (growHoldings stocks scenario randm holdings).getD i 0 =
      holdings.getD i 0 *
        (1 + actualMonthlyReturn scenario
          ((stocks.getD i defaultStock).geometricMean / 12)
          ((stocks.getD i defaultStock).volatility / Real.sqrt 12)
          (generateStandardNormalRandom (randm i).1 (randm i).2)) := by
  refine ⟨rfl, ?_, ?_, ?_, ?_, ?_, ?_⟩
  · unfold actualMonthlyReturn WORST_CASE_RETURN_MULTIPLIER
      WORST_CASE_ADDITIONAL_NEGATIVE_BIAS WORST_CASE_VOL_MULTIPLIER
    norm_num
  · unfold actualMonthlyReturn BEST_CASE_RETURN_MULTIPLIER BEST_CASE_VOL_MULTIPLIER
    norm_num
  · have h1 : (0 : ℝ) ≤ |r| * (mv * 0.6) := by positivity
    have h2 : mer * 1.5 + |r| * (mv * 0.6) ≤ actualMonthlyReturn ScenarioType.BEST mer mv r := by
      unfold actualMonthlyReturn BEST_CASE_RETURN_MULTIPLIER BEST_CASE_VOL_MULTIPLIER
      exact le_max_right _ _
    linarith
  · exact le_max_left _ _
  · unfold generateStandardNormalRandom
    refine max_le (by norm_num) ?_
    exact min_le_left _ _
  · unfold growHoldings
    rw [List.getD_eq_getElem?_getD, List.getElem?_map, List.getElem?_range hi]
    rfl

/-- C8: when the month's `totalCapitalForReallocation` is positive and the
rebalancing allocation fails, the month keeps each asset at its grown value,
puts `totalCapitalForReallocation` minus the grown sum into the risk-free
holding (so the holdings sum exactly to `totalCapitalForReallocation`),
records those grown values, and every successful run still produces a
complete history of `durationInMonths + 1` states. -/
theorem allocation_failure_fallback (stocks : List Stock) (bankAccount : BankAccount)
    (target corr monthly : ℝ) (scen : ScenarioType) (randm : ℕ → ℝ × ℝ) (m : ℕ)
    (s : SimState) (e : AllocError)
    (h0 : ∀ x ∈ s.holdings, 0 ≤ x)
    (hT : 0 < (growHoldings stocks scen randm s.holdings).sum +
      s.bank * (1 + bankAccount.interestRate / 12) + monthly)
    (hfail : calculateAllocation
      ((growHoldings stocks scen randm s.holdings).sum +
        s.bank * (1 + bankAccount.interestRate / 12) + monthly)
      stocks bankAccount target corr = Except.error e) :
    (simulateMonth stocks bankAccount target corr monthly scen randm m s).1.holdings =
      growHoldings stocks scen randm s.holdings ∧
    (simulateMonth stocks bankAccount target corr monthly scen randm m s).1.bank =
      ((growHoldings stocks scen randm s.holdings).sum +
        s.bank * (1 + bankAccount.interestRate / 12) + monthly) -
        (growHoldings stocks scen randm s.holdings).sum ∧
    (simulateMonth stocks bankAccount target corr monthly scen randm m s).1.holdings.sum +
      (simulateMonth stocks bankAccount target corr monthly scen randm m s).1.bank =
      (growHoldings stocks scen randm s.holdings).sum +
        s.bank * (1 + bankAccount.interestRate / 12) + monthly ∧
    (simulateMonth stocks bankAccount target corr monthly scen randm m s).2.stockValues =
      growHoldings stocks scen randm s.holdings ∧
    (∀ (init2 monthly2 target2 corr2 : ℝ) (stocks2 : List Stock)
      (bank2 : BankAccount) (dur2 : ℕ) (scen2 : ScenarioType)
      (rand2 : ℕ → ℕ → ℝ × ℝ) (hist2 : List MonthlySimulatedPortfolioState),
      simulateInvestmentStrategy init2 monthly2 stocks2 bank2 target2 dur2 scen2
        corr2 rand2 = Except.ok hist2 → hist2.length = dur2 + 1) := by
  have hgrown : ∀ y ∈ growHoldings stocks scen randm s.holdings, 0 ≤ y :=
    growHoldings_nonneg h0
  have hmap := map_max_zero_eq hgrown
  have h1 : (simulateMonth stocks bankAccount target corr monthly scen randm m s).1.holdings =
      growHoldings stocks scen randm s.holdings := by
    unfold simulateMonth
    simp only []
    rw [if_pos hT, hfail]
    exact hmap
  have h2 : (simulateMonth stocks bankAccount target corr monthly scen randm m s).1.bank =
      ((growHoldings stocks scen randm s.holdings).sum +
        s.bank * (1 + bankAccount.interestRate / 12) + monthly) -
        (growHoldings stocks scen randm s.holdings).sum := by
    unfold simulateMonth
    simp only []
    rw [if_pos hT, hfail]
  refine ⟨h1, h2, ?_, ?_, ?_⟩
  · rw [h1, h2]
    ring
  · rw [simulateMonth_record_stockValues, h1]
  · intro init2 monthly2 target2 corr2 stocks2 bank2 dur2 scen2 rand2 hist2 hok2
    rcases simulateInvestmentStrategy_ok_inv hok2 with ⟨-, -, -, rfl⟩
    rw [List.length_cons,
      simulateLoop_length stocks2 bank2 target2 corr2 monthly2 scen2 rand2 dur2 1 _]

/-! ## Concrete evaluations -/

noncomputable def stockA : Stock := ⟨"A", 0.2, 0.2⟩

noncomputable def bankB : BankAccount := ⟨"B", 0.01⟩

/-- The allocation of 100 at target volatility 0.4 over `stockA` alone:
Sharpe 0.95, weight 1, basket volatility 0.2, leverage 2, bank at -100. -/
noncomputable def allocA : PortfolioAllocationResult :=
  { stocks := [⟨"A", 200, 100, 200⟩]
    bankAllocation := ⟨"B", -100, -100⟩
    basketMetrics := ⟨20, 20, ((0.95 : ℝ) : EReal)⟩
    targetPortfolioVolatility := 40
    totalInvestment := 100 }

lemma validate_A : validateInputs 100 [stockA] bankB 0.4 0.6 = Except.ok () := by
  rw [validateInputs_ok_iff]
  refine ⟨by norm_num, ?_, ?_, ?_, by norm_num, by norm_num, by norm_num⟩
  · intro s hs
    rw [List.mem_singleton] at hs
    subst hs
    exact ⟨by norm_num [stockA], by simp [stockA]⟩
  · norm_num [bankB, MIN_INTEREST_RATE]
  · norm_num [bankB, MAX_INTEREST_RATE]

lemma sharpe_A : calculateStockSharpeRatios [stockA] bankB.interestRate = [0.95] := by
  unfold calculateStockSharpeRatios stockA bankB
  simp only [List.map_cons, List.map_nil, List.cons.injEq, and_true]
  norm_num

lemma weights_A : calculateBasketWeights [0.95] ["A"] = Except.ok [1] := by
  rw [calculateBasketWeights_ok_iff]
  right
  have hd : decide ((0 : ℝ) < 0.95) = true := decide_eq_true (by norm_num)
  have hfil : (([0.95] : List ℝ).filter fun r => decide (0 < r)) = [0.95] := by
    rw [List.filter_cons, if_pos hd, List.filter_nil]
  constructor
  · exact ⟨0.95, List.mem_singleton.mpr rfl, by norm_num⟩
  · rw [hfil]
    simp only [List.map_cons, List.map_nil, List.sum_cons, List.sum_nil,
      List.cons.injEq, and_true]
    rw [if_pos (by norm_num : (0 : ℝ) < 0.95)]
    norm_num

lemma variance_A : basketVariance [stockA] [1] 0.6 = (0.04 : ℝ) := by
  unfold basketVariance
  rw [List.length_singleton, Finset.sum_range_one,
    show Finset.Ioo 0 1 = (∅ : Finset ℕ) from rfl, Finset.sum_empty]
  norm_num [stockA]

lemma er_A : basketExpectedReturn [stockA] [1] = (0.2 : ℝ) := by
  unfold basketExpectedReturn
  rw [List.length_singleton, Finset.sum_range_one]
  norm_num [stockA]

lemma metrics_A : calculateBasketMetrics [stockA] [1] 0.01 0.6 =
    ⟨0.2, 0.2, ((0.95 : ℝ) : EReal)⟩ := by
  have hvol : Real.sqrt (basketVariance [stockA] [1] 0.6) = 0.2 := by
    rw [variance_A, show (0.04 : ℝ) = 0.2 ^ 2 from by norm_num,
      Real.sqrt_sq (by norm_num : (0 : ℝ) ≤ 0.2)]
  unfold calculateBasketMetrics
  simp only [er_A, hvol]
  rw [if_pos (by norm_num : (0 : ℝ) < 0.2)]
  simp only [BasketMetrics.mk.injEq, EReal.coe_eq_coe_iff]
  norm_num

lemma bwip_A : basketWeightInPortfolioResult
    (⟨0.2, 0.2, ((0.95 : ℝ) : EReal)⟩ : BasketMetrics) 0.4 0.01 = Except.ok 2 := by
  unfold basketWeightInPortfolioResult
  rw [if_neg (by norm_num : ¬((0.2 : ℝ) = 0))]
  simp only [Except.ok.injEq]
  norm_num

lemma assemble_A : assembleResult 100 [stockA] bankB 0.4 [1]
    (⟨0.2, 0.2, ((0.95 : ℝ) : EReal)⟩ : BasketMetrics) 2 = allocA := by
  unfold assembleResult allocA stockA bankB
  simp only [List.zipWith_cons_cons, List.zipWith_nil_left, List.zipWith_nil_right,
    PortfolioAllocationResult.mk.injEq, BankAllocationResult.mk.injEq,
    BasketMetrics.mk.injEq, List.cons.injEq, StockAllocationResult.mk.injEq,
    and_true, true_and]
  norm_num

lemma weights_A' : calculateBasketWeights
    (calculateStockSharpeRatios [stockA] bankB.interestRate)
    ([stockA].map Stock.name) = Except.ok [1] := by
  rw [sharpe_A, show ([stockA].map Stock.name) = ["A"] from by simp [stockA]]
  exact weights_A

lemma bwip_A' : basketWeightInPortfolioResult
    (calculateBasketMetrics [stockA] [1] bankB.interestRate 0.6) 0.4
    bankB.interestRate = Except.ok 2 := by
  rw [show bankB.interestRate = (0.01 : ℝ) from rfl, metrics_A]
  exact bwip_A

lemma alloc_A : calculateAllocation 100 [stockA] bankB 0.4 0.6 =
    Except.ok allocA := by
  unfold calculateAllocation
  rw [validate_A]
  simp only []
  rw [if_neg (by simp : ¬([stockA] = [])), weights_A']
  simp only []
  rw [show bankB.interestRate = (0.01 : ℝ) from rfl, metrics_A, bwip_A]
  simp only []
  rw [assemble_A]

lemma initial_A : initialSimState 100 [stockA] bankB 0.4 0.6 =
    ⟨[200], -100, 100⟩ := by
  unfold initialSimState
  rw [if_pos (by norm_num : (0 : ℝ) < 100), alloc_A]
  simp only []
  unfold allocA
  simp

lemma run_leverage :
    simulateInvestmentStrategy 100 0 [stockA] bankB 0.4 0 ScenarioType.AVERAGE 0.6
      (fun _ _ => (1, 1)) =
      Except.ok [{ month := 0, stockValues := [200], bankValue := -100,
                   totalPortfolioValue := 100, totalCapitalInvested := 100 }] := by
  unfold simulateInvestmentStrategy
  rw [if_neg (by norm_num : ¬(100 : ℝ) < 0), if_neg (by norm_num : ¬(0 : ℝ) < 0),
    if_neg (by simp : ¬([stockA] = [] ∧ (0 : ℝ) < 0.4))]
  simp only [initial_A]
  unfold simulateLoop
  simp only [Except.ok.injEq, List.cons.injEq, and_true,
    MonthlySimulatedPortfolioState.mk.injEq]
  norm_num

/-- C3 counterexample: with one stock of annual volatility 0.2 and target
volatility 0.4 (leverage 2), the month-0 recorded state already has a
negative risk-free holding (-100), although no
`totalCapitalForReallocation` was ever computed (0-month run), refuting
"risk-free holding negative only after a prior negative
totalCapitalForReallocation". -/
theorem simulate_negative_bank_counterexample :
    simulateInvestmentStrategy 100 0 [stockA] bankB 0.4 0 ScenarioType.AVERAGE 0.6
      (fun _ _ => (1, 1)) =
      Except.ok [{ month := 0, stockValues := [200], bankValue := -100,
                   totalPortfolioValue := 100, totalCapitalInvested := 100 }] ∧
    (-100 : ℝ) < 0 :=
  ⟨run_leverage, by norm_num⟩

/-! Evaluations of the no-stock runs used by the C2 and C9 counterexamples. -/

lemma validate_empty {t : ℝ} (ht : 0 ≤ t) :
    validateInputs t [] bankB 0 0.6 = Except.ok () := by
  rw [validateInputs_ok_iff]
  exact ⟨ht, by simp, by norm_num [bankB, MIN_INTEREST_RATE],
    by norm_num [bankB, MAX_INTEREST_RATE], by norm_num, by norm_num, by norm_num⟩

lemma alloc_empty {t : ℝ} (ht : 0 ≤ t) :
    calculateAllocation t [] bankB 0 0.6 =
      Except.ok (emptyStocksResult t bankB) := by
  unfold calculateAllocation
  rw [validate_empty ht]
  simp only []
  rw [if_pos trivial, if_pos trivial]

lemma floor_point_six : ⌊(0.6 : ℝ)⌋ = 0 := by
  rw [Int.floor_eq_zero_iff]
  constructor <;> norm_num

lemma round2_milli : round2 (0.001 : ℝ) = 0 := by
  unfold round2
  rw [show (0.001 : ℝ) * 100 + 1 / 2 = 0.6 from by norm_num, floor_point_six]
  norm_num

lemma run_milli :
    simulateInvestmentStrategy 0.001 0 [] bankB 0 0 ScenarioType.AVERAGE 0.6
      (fun _ _ => (1, 1)) =
      Except.ok [{ month := 0, stockValues := [], bankValue := 0.001,
                   totalPortfolioValue := 0.001, totalCapitalInvested := 0.001 }] := by
  · unfold simulateInvestmentStrategy
    rw [if_neg (by norm_num : ¬(0.001 : ℝ) < 0), if_neg (by norm_num : ¬(0 : ℝ) < 0),
      if_neg (by simp : ¬(([] : List Stock) = [] ∧ (0 : ℝ) < 0))]
    have hinit : initialSimState 0.001 [] bankB 0 0.6 = ⟨[], 0.001, 0.001⟩ := by
      unfold initialSimState
      rw [if_pos (by norm_num : (0 : ℝ) < 0.001),
        alloc_empty (by norm_num : (0 : ℝ) ≤ 0.001)]
      simp [emptyStocksResult]
    simp only [hinit]
    unfold simulateLoop
    simp only [Except.ok.injEq, List.cons.injEq, and_true,
      MonthlySimulatedPortfolioState.mk.injEq]
    norm_num

/-- C9 counterexample: the run with initial investment 0.001 and no stocks
records a month-0 bank value of exactly 0.001, which is not a fixed point
of the 2-decimal rounding - so not every numeric field of every recorded
state is rounded to 2 decimal places. -/
theorem recorded_state_unrounded_counterexample :
    simulateInvestmentStrategy 0.001 0 [] bankB 0 0 ScenarioType.AVERAGE 0.6
      (fun _ _ => (1, 1)) =
      Except.ok [{ month := 0, stockValues := [], bankValue := 0.001,
                   totalPortfolioValue := 0.001, totalCapitalInvested := 0.001 }] ∧
    round2 (0.001 : ℝ) ≠ (0.001 : ℝ) := by
  refine ⟨run_milli, ?_⟩
  rw [round2_milli]
  norm_num

lemma month1_empty : simulateMonth [] bankB 0 0.6 0.001 ScenarioType.AVERAGE
    (fun _ => ((1 : ℝ), (1 : ℝ))) 1 ⟨[], 0, 0⟩ =
    (⟨[], 0.001, 0.001⟩, ⟨1, [], 0, 0, 0⟩) := by
  unfold simulateMonth
  have hg : growHoldings [] ScenarioType.AVERAGE (fun _ => ((1 : ℝ), (1 : ℝ)))
      ([] : List ℝ) = [] := rfl
  simp only [hg, List.sum_nil, zero_mul, zero_add, add_zero, List.map_nil]
  rw [if_pos (by norm_num : (0 : ℝ) < 0.001),
    alloc_empty (by norm_num : (0 : ℝ) ≤ 0.001)]
  simp only [emptyStocksResult, List.map_nil, List.sum_nil, zero_add,
    Prod.mk.injEq, SimState.mk.injEq, MonthlySimulatedPortfolioState.mk.injEq,
    round2_milli]

lemma run_empty_milli :
    simulateInvestmentStrategy 0 0.001 [] bankB 0 1 ScenarioType.AVERAGE 0.6
      (fun _ _ => (1, 1)) =
      Except.ok [{ month := 0, stockValues := [], bankValue := 0,
                   totalPortfolioValue := 0, totalCapitalInvested := 0 },
                 { month := 1, stockValues := [], bankValue := 0,
                   totalPortfolioValue := 0, totalCapitalInvested := 0 }] := by
  unfold simulateInvestmentStrategy
  rw [if_neg (by norm_num : ¬(0 : ℝ) < 0), if_neg (by norm_num : ¬(0.001 : ℝ) < 0),
    if_neg (by simp : ¬(([] : List Stock) = [] ∧ (0 : ℝ) < 0))]
  have hinit : initialSimState 0 [] bankB 0 0.6 = ⟨[], 0, 0⟩ := by
    unfold initialSimState
    rw [if_neg (by norm_num : ¬(0 : ℝ) < 0)]
    simp
  simp only [hinit]
  unfold simulateLoop
  simp only [month1_empty]
  unfold simulateLoop
  simp only [Except.ok.injEq, List.cons.injEq, and_true,
    MonthlySimulatedPortfolioState.mk.injEq]
  norm_num

/-- C2 counterexample: with initial investment 0, monthly deposit 0.001 and
one simulated month, the recorded cumulative capital for month 1 is the
rounded value 0, not `0 + 1 × 0.001` - the recorded field passes through
`toFixed(2)`, so the claim's exact equality fails. -/
theorem recorded_cumulative_exact_counterexample :
    simulateInvestmentStrategy 0 0.001 [] bankB 0 1 ScenarioType.AVERAGE 0.6
      (fun _ _ => (1, 1)) =
      Except.ok [{ month := 0, stockValues := [], bankValue := 0,
                   totalPortfolioValue := 0, totalCapitalInvested := 0 },
                 { month := 1, stockValues := [], bankValue := 0,
                   totalPortfolioValue := 0, totalCapitalInvested := 0 }] ∧
    (0 : ℝ) ≠ 0 + (1 : ℝ) * 0.001 :=
  ⟨run_empty_milli, by norm_num⟩

/-! Evaluations of the degenerate two-stock basket (zero basket volatility
at correlation -1) whose reallocation always fails, used by the C8 witness. -/

noncomputable def stockC : Stock := ⟨"C", 0.012, 0.2⟩

noncomputable def stockD : Stock := ⟨"D", 0.012, 0.2⟩

noncomputable def bankE : BankAccount := ⟨"E", 0.012⟩

lemma validate_CD {t : ℝ} (ht : 0 ≤ t) :
    validateInputs t [stockC, stockD] bankE 0.15 (-1) = Except.ok () := by
  rw [validateInputs_ok_iff]
  refine ⟨ht, ?_, by norm_num [bankE, MIN_INTEREST_RATE],
    by norm_num [bankE, MAX_INTEREST_RATE], by norm_num, by norm_num, by norm_num⟩
  intro s hs
  rw [List.mem_cons, List.mem_singleton] at hs
  rcases hs with rfl | rfl
  · exact ⟨by norm_num [stockC], by simp [stockC]⟩
  · exact ⟨by norm_num [stockD], by simp [stockD]⟩

lemma sharpe_CD : calculateStockSharpeRatios [stockC, stockD] bankE.interestRate =
    [0, 0] := by
  unfold calculateStockSharpeRatios stockC stockD bankE
  simp only [List.map_cons, List.map_nil, List.cons.injEq, and_true]
  norm_num

lemma weights_CD : calculateBasketWeights [0, 0] ["C", "D"] =
    Except.ok [1 / 2, 1 / 2] := by
  rw [calculateBasketWeights_ok_iff]
  left
  constructor
  · intro r hr
    rw [List.mem_cons, List.mem_singleton] at hr
    rcases hr with rfl | rfl <;> norm_num
  · rw [if_pos (by norm_num : 0 < ([0, 0] : List ℝ).length)]
    simp only [List.map_cons, List.map_nil, List.length_cons, List.length_nil,
      List.cons.injEq, and_true]
    norm_num

lemma er_CD : basketExpectedReturn [stockC, stockD] [1 / 2, 1 / 2] = (0.012 : ℝ) := by
  unfold basketExpectedReturn
  rw [show ([stockC, stockD] : List Stock).length = 2 from rfl,
    Finset.sum_range_succ, Finset.sum_range_one]
  norm_num [stockC, stockD]

lemma variance_CD : basketVariance [stockC, stockD] [1 / 2, 1 / 2] (-1) = 0 := by
  unfold basketVariance
  rw [show ([stockC, stockD] : List Stock).length = 2 from rfl,
    Finset.sum_range_succ, Finset.sum_range_one,
    show Finset.Ioo 0 2 = ({1} : Finset ℕ) from rfl,
    show Finset.Ioo 1 2 = (∅ : Finset ℕ) from rfl,
    Finset.sum_singleton, Finset.sum_empty]
  norm_num [stockC, stockD]

lemma metrics_CD : calculateBasketMetrics [stockC, stockD] [1 / 2, 1 / 2] 0.012 (-1) =
    ⟨0.012, 0, (0 : EReal)⟩ := by
  have hvol : Real.sqrt (basketVariance [stockC, stockD] [1 / 2, 1 / 2] (-1)) = 0 := by
    rw [variance_CD, Real.sqrt_zero]
  unfold calculateBasketMetrics
  simp only [er_CD, hvol]
  rw [if_neg (lt_irrefl (0 : ℝ)), if_pos (by norm_num : (0.012 : ℝ) - 0.012 = 0)]

lemma bwip_CD : basketWeightInPortfolioResult
    (⟨0.012, 0, (0 : EReal)⟩ : BasketMetrics) 0.15 0.012 =
    Except.error AllocError.unachievableVolatility := by
  unfold basketWeightInPortfolioResult
  rw [if_pos rfl, if_neg (by norm_num : ¬(0.15 : ℝ) = 0)]

lemma weights_CD' : calculateBasketWeights
    (calculateStockSharpeRatios [stockC, stockD] bankE.interestRate)
    ([stockC, stockD].map Stock.name) = Except.ok [1 / 2, 1 / 2] := by
  rw [sharpe_CD,
    show ([stockC, stockD].map Stock.name) = ["C", "D"] from by simp [stockC, stockD]]
  exact weights_CD

lemma alloc_CD {t : ℝ} (ht : 0 ≤ t) :
    calculateAllocation t [stockC, stockD] bankE 0.15 (-1) =
      Except.error AllocError.unachievableVolatility := by
  unfold calculateAllocation
  rw [validate_CD ht]
  simp only []
  rw [if_neg (by simp : ¬([stockC, stockD] = [])), weights_CD']
  simp only []
  rw [show bankE.interestRate = (0.012 : ℝ) from rfl, metrics_CD, bwip_CD]

lemma grow_zero_CD : growHoldings [stockC, stockD] ScenarioType.AVERAGE
    (fun _ => ((1 : ℝ), (1 : ℝ))) [0, 0] = [0, 0] := by
  unfold growHoldings
  rw [show List.range ([stockC, stockD] : List Stock).length = [0, 1] from rfl]
  simp only [List.map_cons, List.map_nil, List.getD_cons_zero, List.getD_cons_succ]
  norm_num

/-! ## Witnesses -/

/-- Witness for C1 at the concrete single-stock leveraged allocation. -/
theorem calculateAllocation_amounts_sum_witness :
    ((0 : ℝ) ≤ 100 ∧ (∀ s ∈ [stockA], 0 < s.volatility ∧ s.name ≠ "") ∧
      MIN_INTEREST_RATE ≤ bankB.interestRate ∧
      bankB.interestRate ≤ MAX_INTEREST_RATE ∧
      (0 : ℝ) ≤ 0.4 ∧ (-1 : ℝ) ≤ 0.6 ∧ (0.6 : ℝ) ≤ 1) ∧
    |((allocA.stocks.map StockAllocationResult.amount).sum +
        allocA.bankAllocation.amount) - 100| ≤ 1 / 1000000 ∧
    |(allocA.stocks.map StockAllocationResult.amount).sum - 100 * 2|
        ≤ (1 / 1000000) * |(100 : ℝ) * 2| := by
  have hstocks : ∀ s ∈ [stockA], 0 < s.volatility ∧ s.name ≠ "" := by
    intro s hs
    rw [List.mem_singleton] at hs
    subst hs
    exact ⟨by norm_num [stockA], by simp [stockA]⟩
  have h := calculateAllocation_amounts_sum 100 0.4 0.6 [stockA] bankB allocA [1] 2
    (by norm_num) hstocks (by norm_num [bankB, MIN_INTEREST_RATE])
    (by norm_num [bankB, MAX_INTEREST_RATE]) (by norm_num) (by norm_num)
    (by norm_num) weights_A' bwip_A' alloc_A
  exact ⟨⟨by norm_num, hstocks, by norm_num [bankB, MIN_INTEREST_RATE],
    by norm_num [bankB, MAX_INTEREST_RATE], by norm_num, by norm_num, by norm_num⟩,
    h.1, h.2⟩

noncomputable def recZero : MonthlySimulatedPortfolioState :=
  { month := 0, stockValues := [], bankValue := 0,
    totalPortfolioValue := 0, totalCapitalInvested := 0 }

noncomputable def recOne : MonthlySimulatedPortfolioState :=
  { month := 1, stockValues := [], bankValue := 0,
    totalPortfolioValue := 0, totalCapitalInvested := 0 }

noncomputable def recLeverage : MonthlySimulatedPortfolioState :=
  { month := 0, stockValues := [200], bankValue := -100,
    totalPortfolioValue := 100, totalCapitalInvested := 100 }

/-- Witness for the amended C2 at the one-month empty-stock run. -/
theorem recorded_cumulative_capital_witness :
    ([recZero, recOne][1]? = some recOne) ∧
    recOne.month = 1 ∧
    recOne.totalCapitalInvested =
      (if (1 : ℕ) = 0 then (0 : ℝ) else round2 (0 + ((1 : ℕ) : ℝ) * 0.001)) := by
  have hN : [recZero, recOne][1]? = some recOne := rfl
  have hok : simulateInvestmentStrategy 0 0.001 [] bankB 0 1 ScenarioType.AVERAGE
      0.6 (fun _ _ => (1, 1)) = Except.ok [recZero, recOne] := run_empty_milli
  have h := recorded_cumulative_capital 0 0.001 0 0.6 [] bankB 1
    ScenarioType.AVERAGE (fun _ _ => (1, 1)) _ 1 _ hok hN
  exact ⟨hN, h.1, h.2⟩

/-- Witness for the amended C3 at the leveraged single-stock run. -/
theorem recorded_risky_holdings_nonneg_witness :
    (recLeverage ∈ [recLeverage]) ∧
    ((200 : ℝ) ∈ recLeverage.stockValues) ∧ (0 : ℝ) ≤ 200 := by
  have hok : simulateInvestmentStrategy 100 0 [stockA] bankB 0.4 0
      ScenarioType.AVERAGE 0.6 (fun _ _ => (1, 1)) =
      Except.ok [recLeverage] := run_leverage
  refine ⟨List.mem_singleton.mpr rfl, List.mem_singleton.mpr rfl, ?_⟩
  exact recorded_risky_holdings_nonneg 100 0 0.4 0.6 [stockA] bankB 0
    ScenarioType.AVERAGE (fun _ _ => (1, 1)) _ _ 200 hok
    (List.mem_singleton.mpr rfl) (List.mem_singleton.mpr rfl)

/-- Witness for C4: a positive-Sharpe basket and an all-non-positive basket. -/
theorem calculateBasketWeights_of_sharpe_witness :
    (∃ r ∈ calculateStockSharpeRatios [stockA] bankB.interestRate, 0 < r) ∧
    calculateBasketWeights (calculateStockSharpeRatios [stockA] bankB.interestRate)
      ["A"] = Except.ok
        ((calculateStockSharpeRatios [stockA] bankB.interestRate).map fun ratio =>
          if 0 < ratio then ratio /
            ((calculateStockSharpeRatios [stockA] bankB.interestRate).filter
              fun r => decide (0 < r)).sum
          else 0) ∧
    (∀ r ∈ calculateStockSharpeRatios [stockC, stockD] bankE.interestRate, r ≤ 0) ∧
    calculateBasketWeights
      (calculateStockSharpeRatios [stockC, stockD] bankE.interestRate)
      ["C", "D"] = Except.ok
        ((calculateStockSharpeRatios [stockC, stockD] bankE.interestRate).map
          fun _ => 1 / (([stockC, stockD] : List Stock).length : ℝ)) := by
  have hex : ∃ r ∈ calculateStockSharpeRatios [stockA] bankB.interestRate, 0 < r := by
    rw [sharpe_A]
    exact ⟨0.95, List.mem_singleton.mpr rfl, by norm_num⟩
  have hall : ∀ r ∈ calculateStockSharpeRatios [stockC, stockD] bankE.interestRate,
      r ≤ 0 := by
    rw [sharpe_CD]
    intro r hr
    rw [List.mem_cons, List.mem_singleton] at hr
    rcases hr with rfl | rfl <;> norm_num
  exact ⟨hex, (calculateBasketWeights_of_sharpe [stockA] bankB.interestRate ["A"]).1 hex,
    hall, (calculateBasketWeights_of_sharpe [stockC, stockD] bankE.interestRate
      ["C", "D"]).2 hall (by simp)⟩

/-- Witness for C5 at the positive-basket-volatility branch. -/
theorem basketWeightInPortfolio_cases_witness :
    validateInputs 100 [stockA] bankB 0.4 0.6 = Except.ok () ∧
    ([stockA] ≠ []) ∧
    calculateBasketWeights (calculateStockSharpeRatios [stockA] bankB.interestRate)
      ([stockA].map Stock.name) = Except.ok [1] ∧
    basketWeightInPortfolioResult
      (calculateBasketMetrics [stockA] [1] bankB.interestRate 0.6) 0.4
      bankB.interestRate =
      Except.ok (0.4 /
        (calculateBasketMetrics [stockA] [1] bankB.interestRate 0.6).volatility) := by
  have hvol : 0 < (calculateBasketMetrics [stockA] [1] bankB.interestRate 0.6).volatility := by
    rw [show bankB.interestRate = (0.01 : ℝ) from rfl, metrics_A]
    norm_num
  exact ⟨validate_A, by simp, weights_A',
    (basketWeightInPortfolio_cases 100 0.4 0.6 [stockA] bankB [1] validate_A
      (by simp) weights_A').1 hvol⟩

/-- Witness for C6 at totalAmount 5, target volatility 0. -/
theorem calculateAllocation_empty_stocks_witness :
    validateInputs 5 [] bankB 0 0.6 = Except.ok () ∧
    (calculateAllocation 5 [] bankB 0 0.6 = Except.ok (emptyStocksResult 5 bankB) ∧
     (emptyStocksResult 5 bankB).stocks = [] ∧
     (emptyStocksResult 5 bankB).bankAllocation.amount = 5 ∧
     (emptyStocksResult 5 bankB).bankAllocation.weightInTotal =
       (if (0 : ℝ) < 5 then 100 else 0)) := by
  have hval := validate_empty (t := 5) (by norm_num)
  exact ⟨hval, (calculateAllocation_empty_stocks 5 0 0.6 bankB hval).1 rfl⟩

/-- Witness for C7 at concrete scenario parameters. -/
theorem monthly_return_formula_witness :
    (0 < ([stockA] : List Stock).length) ∧ ((0 : ℝ) ≤ 1) ∧
    (actualMonthlyReturn ScenarioType.AVERAGE 2 1 (-3) = max (-1) (2 + (-3) * 1) ∧
     actualMonthlyReturn ScenarioType.WORST 2 1 (-3) =
       max (-1) ((2 * 0.3 + -0.0075) + (-3) * (1 * 1.25)) ∧
     actualMonthlyReturn ScenarioType.BEST 2 1 (-3) =
       max (-1) (2 * 1.5 + |(-3 : ℝ)| * (1 * 0.6)) ∧
     2 * 1.5 ≤ actualMonthlyReturn ScenarioType.BEST 2 1 (-3) ∧
     -3.5 ≤ generateStandardNormalRandom 1 1 ∧
     generateStandardNormalRandom 1 1 ≤ 3.5 ∧
     (growHoldings [stockA] ScenarioType.AVERAGE (fun _ => (1, 1)) [5]).getD 0 0 =
       ([5] : List ℝ).getD 0 0 *
         (1 + actualMonthlyReturn ScenarioType.AVERAGE
           (([stockA].getD 0 defaultStock).geometricMean / 12)
           (([stockA].getD 0 defaultStock).volatility / Real.sqrt 12)
           (generateStandardNormalRandom 1 1))) := by
  refine ⟨by norm_num, by norm_num, ?_⟩
  exact monthly_return_formula 2 1 (-3) 1 1 [stockA] ScenarioType.AVERAGE
    (fun _ => (1, 1)) [5] 0 (by norm_num) (by norm_num)

/-- Witness for C8 at the degenerate two-stock portfolio whose monthly
reallocation fails with `UnachievableVolatility`. -/
theorem allocation_failure_fallback_witness :
    (∀ x ∈ (⟨[0, 0], 100, 100⟩ : SimState).holdings, 0 ≤ x) ∧
    (0 < (growHoldings [stockC, stockD] ScenarioType.AVERAGE (fun _ => (1, 1))
        (⟨[0, 0], 100, 100⟩ : SimState).holdings).sum +
      (⟨[0, 0], 100, 100⟩ : SimState).bank * (1 + bankE.interestRate / 12) + 0) ∧
    (calculateAllocation
        ((growHoldings [stockC, stockD] ScenarioType.AVERAGE (fun _ => (1, 1))
          (⟨[0, 0], 100, 100⟩ : SimState).holdings).sum +
        (⟨[0, 0], 100, 100⟩ : SimState).bank * (1 + bankE.interestRate / 12) + 0)
      [stockC, stockD] bankE 0.15 (-1) =
      Except.error AllocError.unachievableVolatility) ∧
    (simulateMonth [stockC, stockD] bankE 0.15 (-1) 0 ScenarioType.AVERAGE
        (fun _ => (1, 1)) 1 ⟨[0, 0], 100, 100⟩).1.holdings.sum +
      (simulateMonth [stockC, stockD] bankE 0.15 (-1) 0 ScenarioType.AVERAGE
        (fun _ => (1, 1)) 1 ⟨[0, 0], 100, 100⟩).1.bank =
      (growHoldings [stockC, stockD] ScenarioType.AVERAGE (fun _ => (1, 1))
        (⟨[0, 0], 100, 100⟩ : SimState).holdings).sum +
        (⟨[0, 0], 100, 100⟩ : SimState).bank * (1 + bankE.interestRate / 12) + 0 := by
  have h0 : ∀ x ∈ (⟨[0, 0], 100, 100⟩ : SimState).holdings, 0 ≤ x := by
    intro x hx
    rw [show (⟨[0, 0], 100, 100⟩ : SimState).holdings = [0, 0] from rfl,
      List.mem_cons, List.mem_singleton] at hx
    rcases hx with rfl | rfl <;> norm_num
  have hgz : (growHoldings [stockC, stockD] ScenarioType.AVERAGE (fun _ => (1, 1))
      (⟨[0, 0], 100, 100⟩ : SimState).holdings) = [0, 0] := grow_zero_CD
  have hT : 0 < (growHoldings [stockC, stockD] ScenarioType.AVERAGE (fun _ => (1, 1))
      (⟨[0, 0], 100, 100⟩ : SimState).holdings).sum +
      (⟨[0, 0], 100, 100⟩ : SimState).bank * (1 + bankE.interestRate / 12) + 0 := by
    rw [hgz, show (⟨[0, 0], 100, 100⟩ : SimState).bank = (100 : ℝ) from rfl,
      show bankE.interestRate = (0.012 : ℝ) from rfl]
    norm_num
  have hfail := alloc_CD hT.le
  exact ⟨h0, hT, hfail,
    (allocation_failure_fallback [stockC, stockD] bankE 0.15 (-1) 0
      ScenarioType.AVERAGE (fun _ => (1, 1)) 1 ⟨[0, 0], 100, 100⟩
      AllocError.unachievableVolatility h0 hT hfail).2.2.1⟩

/-- Witness for the amended C9 at the month-1 record of the empty-stock run. -/
theorem recorded_rounding_from_month_one_witness :
    (1 ≤ recOne.month) ∧ round2 recOne.bankValue = recOne.bankValue := by
  have hok : simulateInvestmentStrategy 0 0.001 [] bankB 0 1 ScenarioType.AVERAGE
      0.6 (fun _ _ => (1, 1)) = Except.ok [recZero, recOne] := run_empty_milli
  have hmem : recOne ∈ [recZero, recOne] :=
    List.mem_cons_of_mem recZero (List.mem_singleton.mpr rfl)
  have h := recorded_rounding_from_month_one 0 0.001 0 0.6 [] bankB 1
    ScenarioType.AVERAGE (fun _ _ => (1, 1)) _ recOne hok hmem (le_refl 1)
  exact ⟨le_refl 1, h.1⟩

end ChadFinance
